import Mathlib

/-!
Verification of the agent-demo weather tutorial: session state store,
weather tools, capability-isolated routing and the conversation driver.

The three entry scripts under `src/` (`basic.py`, `agent_team.py`,
`session_state.py`) configure agents, sessions and a demo conversation;
the tool implementations (`utils.py`) and the runtime (session service,
router, driver) are not part of the sources, so those operations are
modelled from the specification, as marked on each definition.
-/

namespace AgentDemo

/-- Session state: a mapping from string keys to string values. -/
def StateMap := String → Option String

/-- A partial state mapping to be merged into a session's state,
given as key/value pairs. -/
abbrev StateWrite := List (String × String)

/-- Modelled from the spec: `applyStateWrite`'s merge on the state
mapping ("merges partialMapping into the session's state by key
overwrite, last-writer-wins per key within a single merge call; has no
effect on keys not present in partialMapping"). A key present in the
write takes the value of its last occurrence; any other key keeps its
old value. -/
def applyWrite (st : StateMap) (w : StateWrite) : StateMap :=
  fun k =>
    match w.reverse.lookup k with
    | some v => some v
    | none => st k

/-- A session: composite key, state mapping, creation and last-update
timestamps (`src/session_state.py` creates sessions via the session
service; the record itself is modelled from the spec's data model). -/
structure Session where
  appName : String
  userId : String
  sessionId : String
  state : StateMap
  createTime : Nat
  lastUpdate : Nat

/-- Modelled from the spec: `applyStateWrite(session, partialMapping)`
merges the partial mapping into the session's state and updates the
last-update timestamp. -/
def applyStateWrite (sess : Session) (w : StateWrite) (now : Nat) : Session :=
  { sess with state := applyWrite sess.state w, lastUpdate := now }

/-! ## Tool layer -/

/-- Temperature unit used in a weather report. -/
inductive TempUnit where
  | celsius
  | fahrenheit
deriving DecidableEq

/-- Display name of a temperature unit. -/
def unitName : TempUnit → String
  | .celsius => "Celsius"
  | .fahrenheit => "Fahrenheit"

/-- Error taxonomy of the spec's §7. -/
inductive ErrorKind where
  | notFound
  | validationError
  | capabilityError
  | inferenceError
deriving DecidableEq

/-- A successful weather payload: city, condition, temperature and the
unit in which the temperature is expressed. -/
structure WeatherReport where
  city : String
  condition : String
  temp : Rat
  unit : TempUnit
deriving DecidableEq

/-- Payload of a successful tool call: a structured weather report or
plain text (greeting/farewell). -/
inductive Payload where
  | weather (r : WeatherReport)
  | text (s : String)
deriving DecidableEq

/-- Modelled from the spec: `ToolResult` is either
Success(payload, optional state-write mapping) or
Failure(error kind, human-readable message); never raised, always
returned as data. -/
inductive ToolResult where
  | success (payload : Payload) (stateWrite : StateWrite)
  | failure (kind : ErrorKind) (message : String)
deriving DecidableEq

/-- Drop leading and trailing whitespace from a character list. -/
def trimChars (l : List Char) : List Char :=
  ((l.dropWhile Char.isWhitespace).reverse.dropWhile Char.isWhitespace).reverse

/-- Modelled from the spec: city names are "normalized by trimming
whitespace and case-folding before lookup" (`utils.py` is not in the
sources). -/
def normalizeCity (s : String) : String :=
  ⟨(trimChars s.data).map Char.toLower⟩

/-- Modelled from the spec: the fixed table of known cities with
condition and temperature in Celsius (London 15 °C cloudy and
New York 25 °C from the spec's example scenarios; Paris is absent). -/
def weatherTable : List (String × String × Int) :=
  [("london", "cloudy", 15), ("new york", "sunny", 25)]

/-- Table lookup by (already normalized) city name. -/
def lookupCity (name : String) : Option (String × Int) :=
  weatherTable.lookup name

/-- The session-state key holding the user's temperature-unit
preference (`src/session_state.py` line 60). -/
def prefKey : String := "user_preference_temperature_unit"

/-- The state key under which the stateful tool records the last city
checked (`src/session_state.py` line 174). -/
def lastCityKey : String := "last_city_checked_stateful"

/-- Round a rational to one decimal place. -/
def roundTenth (q : Rat) : Rat := ((round (q * 10) : Int) : Rat) / 10

/-- Modelled from the spec: `F = C * 9/5 + 32`, rounded to one decimal
place. -/
def celsiusToFahrenheit (c : Rat) : Rat := roundTenth (c * 9 / 5 + 32)

/-- Modelled from the spec: the stateless weather lookup. Unknown city
yields Failure(NotFound, message naming the original input); a known
city yields a Celsius report and no state write. -/
def get_weather (city : String) : ToolResult :=
  match lookupCity (normalizeCity city) with
  | some (cond, c) =>
      .success (.weather { city := normalizeCity city, condition := cond,
                           temp := (c : Rat), unit := .celsius }) []
  | none => .failure .notFound ("no weather data for " ++ city ++ ".")

/-- Modelled from the spec: the stateful weather lookup. Reads the unit
preference from the state snapshot (default "Celsius" when absent or
unrecognized), converts to Fahrenheit only when the preference is
exactly "Fahrenheit", and on success emits a state write recording the
normalized city name; unknown city fails with no state write. -/
def get_weather_stateful (city : String) (st : StateMap) : ToolResult :=
  match lookupCity (normalizeCity city) with
  | some (cond, c) =>
      let pref := (st prefKey).getD "Celsius"
      if pref = "Fahrenheit" then
        .success (.weather { city := normalizeCity city, condition := cond,
                             temp := celsiusToFahrenheit (c : Rat), unit := .fahrenheit })
          [(lastCityKey, normalizeCity city)]
      else
        .success (.weather { city := normalizeCity city, condition := cond,
                             temp := (c : Rat), unit := .celsius })
          [(lastCityKey, normalizeCity city)]
  | none => .failure .notFound ("no weather data for " ++ city ++ ".")

/-- Modelled from the spec: the greeting tool substitutes an optional
name into a fixed template, else uses a generic salutation; no state
write. -/
def say_hello (name : Option String) : ToolResult :=
  .success (.text (match name with
    | some n => "Hello, " ++ n ++ "!"
    | none => "Hello there!")) []

/-- Modelled from the spec: the farewell tool ignores arguments and
returns a fixed polite closing; no state write. -/
def say_goodbye : ToolResult :=
  .success (.text "Goodbye! Have a great day.") []

/-- Everything of a weather report's rendering that precedes the unit
name. -/
def reportPrefixText (r : WeatherReport) : String :=
  "The weather in " ++ r.city ++ " is " ++ r.condition ++
    " with a temperature of " ++ toString r.temp ++ " degrees "

/-- Render a payload as the turn's final text. -/
def render : Payload → String
  | .weather r => reportPrefixText r ++ unitName r.unit
  | .text s => s

/-! ## Handlers and applications (agent configurations from `src/`) -/

/-- A response handler: its name, the ordered allow-list of tool names
it may invoke, and the optional output key that auto-captures its final
report. -/
structure Handler where
  name : String
  tools : List String
  outputKey : Option String
deriving DecidableEq

/-- An application: a coordinator (root) handler plus its specialist
delegates (single-level delegation). -/
structure App where
  root : Handler
  specialists : List Handler
deriving DecidableEq

/-- The greeting specialist (`src/agent_team.py` lines 21-30 and
`src/session_state.py` lines 21-27): only tool `say_hello`, no output
key. -/
def greeting_agent : Handler :=
  { name := "greeting_agent", tools := ["say_hello"], outputKey := none }

/-- The farewell specialist (`src/agent_team.py` lines 32-41 and
`src/session_state.py` lines 29-35): only tool `say_goodbye`, no
output key. -/
def farewell_agent : Handler :=
  { name := "farewell_agent", tools := ["say_goodbye"], outputKey := none }

/-- The single agent of `src/basic.py` lines 22-33: only tool
`get_weather`. -/
def weather_agent_v1 : Handler :=
  { name := "weather_agent_v1", tools := ["get_weather"], outputKey := none }

/-- The coordinator of `src/agent_team.py` lines 43-57: only tool
`get_weather`, delegating to the two specialists. -/
def weather_agent_v2 : Handler :=
  { name := "weather_agent_v2", tools := ["get_weather"], outputKey := none }

/-- The stateful coordinator of `src/session_state.py` lines 37-48:
only tool `get_weather_stateful`, with
`output_key="last_weather_report"`. -/
def weather_agent_v4_stateful : Handler :=
  { name := "weather_agent_v4_stateful", tools := ["get_weather_stateful"],
    outputKey := some "last_weather_report" }

/-- The application of `src/basic.py`: one agent, no specialists. -/
def basicApp : App := { root := weather_agent_v1, specialists := [] }

/-- The application of `src/agent_team.py`: coordinator plus greeting
and farewell specialists. -/
def teamApp : App :=
  { root := weather_agent_v2, specialists := [greeting_agent, farewell_agent] }

/-- The application of `src/session_state.py`: stateful coordinator
plus greeting and farewell specialists. -/
def statefulApp : App :=
  { root := weather_agent_v4_stateful, specialists := [greeting_agent, farewell_agent] }

/-- The initial session state of `src/session_state.py` lines 59-61:
the unit preference starts at "Celsius". -/
def initial_state : StateMap :=
  fun k => if k = prefKey then some "Celsius" else none

/-! ## Router and conversation driver -/

/-- A registered tool: arguments (a single optional string here: the
city, or the user's name) and a state snapshot to a `ToolResult`. -/
def Tool := Option String → StateMap → ToolResult

/-- Modelled from the spec: the tool registry, a mapping from tool name
to tool function; the weather tools require a city argument
(`ValidationError` when missing). -/
def toolRegistry : String → Option Tool
  | "get_weather" => some fun arg _ =>
      match arg with
      | some c => get_weather c
      | none => .failure .validationError "missing required argument: city"
  | "get_weather_stateful" => some fun arg st =>
      match arg with
      | some c => get_weather_stateful c st
      | none => .failure .validationError "missing required argument: city"
  | "say_hello" => some fun arg _ => say_hello arg
  | "say_goodbye" => some fun _ _ => say_goodbye
  | _ => none

/-- Modelled from the spec: the routing decision produced once per turn
by the external inference collaborator: handle the turn with the
coordinator's own tool, delegate to a named specialist, or decline. -/
inductive RoutingDecision where
  | handleSelf (toolName : String)
  | delegate (handlerId : String) (toolName : String)
  | decline
deriving DecidableEq

/-- The tool name chosen by a routing decision, if any. -/
def chosenTool : RoutingDecision → Option String
  | .handleSelf t => some t
  | .delegate _ t => some t
  | .decline => none

/-- The handler a routing decision resolves to: the root for
`handleSelf`, the named specialist for `delegate`, none for
`decline`. -/
def resolveHandler (app : App) : RoutingDecision → Option Handler
  | .handleSelf _ => some app.root
  | .delegate hid _ => app.specialists.find? (fun h => h.name == hid)
  | .decline => none

/-- The observable outcome of one finalized turn. -/
structure TurnOutcome where
  finalText : String
  invokedTool : Option String
  succeeded : Bool
  error : Option ErrorKind
  stateAfter : StateMap

/-- Fixed response of a declined turn. -/
def declineText : String := "Sorry, I cannot handle that request."

/-- Modelled from the spec: on tool `Failure` the driver produces an
apologetic final text embedding the error message. -/
def apologyText (msg : String) : String :=
  "I am sorry, I could not complete that request: " ++ msg

/-- Modelled from the spec: execute the chosen tool under a resolved
handler. Enforces capability isolation (tool must be in the handler's
allow-list, else `CapabilityError` and no invocation); on `Success`
applies the tool-emitted state write and then the output-key capture;
on `Failure` applies no state write and apologizes. -/
def execWith (h : Handler) (toolName : String) (arg : Option String)
    (st : StateMap) : TurnOutcome :=
  if toolName ∈ h.tools then
    match toolRegistry toolName with
    | none =>
        { finalText := "", invokedTool := none, succeeded := false,
          error := some .inferenceError, stateAfter := st }
    | some f =>
        match f arg st with
        | .success p w =>
            let text := render p
            let st1 := applyWrite st w
            match h.outputKey with
            | some k =>
                { finalText := text, invokedTool := some toolName, succeeded := true,
                  error := none, stateAfter := applyWrite st1 [(k, text)] }
            | none =>
                { finalText := text, invokedTool := some toolName, succeeded := true,
                  error := none, stateAfter := st1 }
        | .failure _ msg =>
            { finalText := apologyText msg, invokedTool := some toolName,
              succeeded := false, error := none, stateAfter := st }
  else
    { finalText := "", invokedTool := none, succeeded := false,
      error := some .capabilityError, stateAfter := st }

/-- Modelled from the spec: run one turn of the conversation driver
against a session-state snapshot, given the inference collaborator's
routing decision and extracted argument. -/
def runTurn (app : App) (st : StateMap) (d : RoutingDecision)
    (arg : Option String) : TurnOutcome :=
  match d with
  | .decline =>
      { finalText := declineText, invokedTool := none, succeeded := false,
        error := none, stateAfter := st }
  | .handleSelf t => execWith app.root t arg st
  | .delegate hid t =>
      match app.specialists.find? (fun h => h.name == hid) with
      | some h => execWith h t arg st
      | none =>
          { finalText := "", invokedTool := none, succeeded := false,
            error := some .inferenceError, stateAfter := st }

/-- One entry in a conversation trace: the state snapshot taken at the
start of the turn, and the turn's outcome. -/
structure TurnRecord where
  snapshot : StateMap
  outcome : TurnOutcome

/-- Modelled from the spec: the driver runs turns of one session
strictly sequentially; each turn starts from the state committed by
the previous turn. -/
def runTurns (app : App) (st : StateMap) :
    List (RoutingDecision × Option String) → List TurnRecord
  | [] => []
  | (d, a) :: rest =>
      let o := runTurn app st d a
      { snapshot := st, outcome := o } :: runTurns app o.stateAfter rest

/-- The manual state bypass of `src/session_state.py` lines 116-117:
the demo reaches into the session service's internal storage and
assigns "Fahrenheit" to the unit-preference key of the stored
session's state dict; the optional timestamp update (lines 118-120) is
commented out. -/
def manualSetFahrenheit (sess : Session) : Session :=
  { sess with
    state := fun k => if k = prefKey then some "Fahrenheit" else sess.state k }

/-- The empty session-state mapping. -/
def emptyState : StateMap := fun _ => none

/-- A session state whose unit preference is "Fahrenheit" and which is
otherwise empty. -/
def fahrenheitState : StateMap :=
  fun k => if k = prefKey then some "Fahrenheit" else none

/-! ## Helper lemmas -/

theorem strAppend_assoc (a b c : String) : a ++ b ++ c = a ++ (b ++ c) := by
  cases a with
  | mk la =>
    cases b with
    | mk lb =>
      cases c with
      | mk lc =>
        show String.mk (la ++ lb ++ lc) = String.mk (la ++ (lb ++ lc))
        rw [List.append_assoc]

theorem apologyText_mentions_sorry (m : String) :
    ∃ pre suf, apologyText m = pre ++ "sorry" ++ suf := by
  refine ⟨"I am ", ", I could not complete that request: " ++ m, ?_⟩
  rw [← strAppend_assoc]
  rfl

theorem apologyText_ne_empty (m : String) : apologyText m ≠ "" := by
  intro hEq
  have hd := congrArg String.data hEq
  simp [apologyText, String.data_append] at hd

theorem execWith_cap (h : Handler) (t : String) (arg : Option String) (st : StateMap) :
    (t ∉ h.tools →
      (execWith h t arg st).error = some ErrorKind.capabilityError ∧
        (execWith h t arg st).invokedTool = none) ∧
    ∀ t2, (execWith h t arg st).invokedTool = some t2 → t2 ∈ h.tools := by
  by_cases hmem : t ∈ h.tools
  · refine ⟨fun hn => absurd hmem hn, ?_⟩
    intro t2 h2
    unfold execWith at h2
    rw [if_pos hmem] at h2
    cases hreg : toolRegistry t with
    | none => simp [hreg] at h2
    | some f =>
      simp only [hreg] at h2
      cases hres : f arg st with
      | success p w =>
        simp only [hres] at h2
        cases hk : h.outputKey with
        | some k =>
          simp only [hk] at h2
          simp at h2
          exact h2 ▸ hmem
        | none =>
          simp only [hk] at h2
          simp at h2
          exact h2 ▸ hmem
      | failure e m =>
        simp only [hres] at h2
        simp at h2
        exact h2 ▸ hmem
  · refine ⟨fun _ => ?_, ?_⟩
    · unfold execWith
      rw [if_neg hmem]
      exact ⟨rfl, rfl⟩
    · intro t2 h2
      unfold execWith at h2
      rw [if_neg hmem] at h2
      simp at h2

theorem execWith_output_key (h : Handler) (t : String) (arg : Option String)
    (st : StateMap) (k : String) (hkey : h.outputKey = some k)
    (hsucc : (execWith h t arg st).succeeded = true) :
    (execWith h t arg st).stateAfter k = some ((execWith h t arg st).finalText) ∧
    ∃ w, (execWith h t arg st).stateAfter =
      applyWrite (applyWrite st w) [(k, (execWith h t arg st).finalText)] := by
  unfold execWith at hsucc ⊢
  by_cases hmem : t ∈ h.tools
  · rw [if_pos hmem] at hsucc ⊢
    cases hreg : toolRegistry t with
    | none => simp [hreg] at hsucc
    | some f =>
      simp only [hreg] at hsucc ⊢
      cases hres : f arg st with
      | success p w =>
        simp only [hres, hkey] at hsucc ⊢
        refine ⟨?_, ⟨w, rfl⟩⟩
        show applyWrite (applyWrite st w) [(k, render p)] k = some (render p)
        simp [applyWrite, List.lookup]
      | failure e m =>
        simp only [hres] at hsucc
        simp at hsucc
  · rw [if_neg hmem] at hsucc
    simp at hsucc

/-! ## Claims -/

/-- Claim C8: applying `applyStateWrite` with the same partial mapping
twice in succession leaves the session's state mapping equal to the
state after applying it once (idempotence on the state mapping). -/
theorem C8_applyStateWrite_idempotent (sess : Session) (w : StateWrite) (t1 t2 : Nat) :
    (applyStateWrite (applyStateWrite sess w t1) w t2).state
      = (applyStateWrite sess w t1).state := by
  funext k
  cases hl : w.reverse.lookup k <;> simp [applyStateWrite, applyWrite, hl]

/-- Claim C6: for every city name in the fixture table and every string
that equals it after trimming surrounding whitespace and case-folding,
both weather lookups on that string return the same result as on the
canonical table form. -/
theorem C6_lookup_normalization (name cond : String) (c : Int)
    (hmem : (name, cond, c) ∈ weatherTable) (s : String)
    (hnorm : normalizeCity s = name) (st : StateMap) :
    get_weather s = get_weather name ∧
    get_weather_stateful s st = get_weather_stateful name st := by
  simp only [weatherTable, List.mem_cons, List.mem_singleton, Prod.mk.injEq,
    List.not_mem_nil, or_false] at hmem
  rcases hmem with ⟨rfl, rfl, rfl⟩ | ⟨rfl, rfl, rfl⟩
  · have hn2 : normalizeCity "london" = "london" := rfl
    have hl : lookupCity "london" = some ("cloudy", 15) := rfl
    constructor
    · simp [get_weather, hnorm, hn2, hl]
    · simp [get_weather_stateful, hnorm, hn2, hl]
  · have hn2 : normalizeCity "new york" = "new york" := rfl
    have hl : lookupCity "new york" = some ("sunny", 25) := rfl
    constructor
    · simp [get_weather, hnorm, hn2, hl]
    · simp [get_weather_stateful, hnorm, hn2, hl]

/-- Witness for C6 at the concrete input "  NEW YORK ". -/
theorem C6_lookup_normalization_witness :
    get_weather "  NEW YORK " = get_weather "new york" ∧
    get_weather_stateful "  NEW YORK " initial_state
      = get_weather_stateful "new york" initial_state :=
  C6_lookup_normalization "new york" "sunny" 25 (by decide) "  NEW YORK "
    (by decide) initial_state

/-- Claim C1: for a city present in the fixture table, the stateful
weather tool reports the table's Celsius value converted by
`F = C * 9/5 + 32` rounded to one decimal place and a report denoting
Fahrenheit exactly when the session state maps the preference key to
"Fahrenheit"; for any other value, or when the key is absent, it
reports the table's Celsius value and denotes Celsius. -/
theorem C1_stateful_unit_preference (city cond : String) (c : Int) (st : StateMap)
    (hlook : lookupCity (normalizeCity city) = some (cond, c)) :
    (st prefKey = some "Fahrenheit" →
      get_weather_stateful city st =
        ToolResult.success (Payload.weather
          { city := normalizeCity city, condition := cond,
            temp := roundTenth ((c : Rat) * 9 / 5 + 32), unit := TempUnit.fahrenheit })
          [(lastCityKey, normalizeCity city)] ∧
      ∃ pre, render (Payload.weather
          { city := normalizeCity city, condition := cond,
            temp := roundTenth ((c : Rat) * 9 / 5 + 32), unit := TempUnit.fahrenheit })
        = pre ++ "Fahrenheit") ∧
    (st prefKey ≠ some "Fahrenheit" →
      get_weather_stateful city st =
        ToolResult.success (Payload.weather
          { city := normalizeCity city, condition := cond,
            temp := (c : Rat), unit := TempUnit.celsius })
          [(lastCityKey, normalizeCity city)] ∧
      ∃ pre, render (Payload.weather
          { city := normalizeCity city, condition := cond,
            temp := (c : Rat), unit := TempUnit.celsius })
        = pre ++ "Celsius") := by
  constructor
  · intro hp
    refine ⟨?_, ⟨reportPrefixText _, rfl⟩⟩
    simp [get_weather_stateful, hlook, hp, celsiusToFahrenheit]
  · intro hn
    have hner : ((st prefKey).getD "Celsius") ≠ "Fahrenheit" := by
      cases hv : st prefKey with
      | none => simp
      | some v =>
        simp only [Option.getD_some]
        intro hveq
        exact hn (by rw [hv, hveq])
    refine ⟨?_, ⟨reportPrefixText _, rfl⟩⟩
    simp [get_weather_stateful, hlook, hner]

/-- Witness for C1 at London with a Fahrenheit preference. -/
theorem C1_stateful_unit_preference_witness :
    get_weather_stateful "London" fahrenheitState =
      ToolResult.success (Payload.weather
        { city := normalizeCity "London", condition := "cloudy",
          temp := roundTenth (((15 : Int) : Rat) * 9 / 5 + 32),
          unit := TempUnit.fahrenheit })
        [(lastCityKey, normalizeCity "London")] ∧
    ∃ pre, render (Payload.weather
        { city := normalizeCity "London", condition := "cloudy",
          temp := roundTenth (((15 : Int) : Rat) * 9 / 5 + 32),
          unit := TempUnit.fahrenheit })
      = pre ++ "Fahrenheit" :=
  (C1_stateful_unit_preference "London" "cloudy" 15 fahrenheitState (by decide)).1 rfl

/-- Claim C2: whenever the router resolves a handler and a tool name is
chosen, a tool name outside the resolved handler's allow-list makes the
turn fail with `CapabilityError` with no tool invoked, and any tool
actually invoked belongs to the allow-list. -/
theorem C2_capability_isolation (app : App) (st : StateMap) (d : RoutingDecision)
    (arg : Option String) (h : Handler) (t : String)
    (hres : resolveHandler app d = some h) (htool : chosenTool d = some t) :
    (t ∉ h.tools →
      (runTurn app st d arg).error = some ErrorKind.capabilityError ∧
        (runTurn app st d arg).invokedTool = none) ∧
    ∀ t2, (runTurn app st d arg).invokedTool = some t2 → t2 ∈ h.tools := by
  cases d with
  | decline => simp [chosenTool] at htool
  | handleSelf t0 =>
    have ht : t0 = t := by simpa [chosenTool] using htool
    have hh : app.root = h := by simpa [resolveHandler] using hres
    subst ht
    subst hh
    exact execWith_cap app.root t0 arg st
  | delegate hid t0 =>
    have ht : t0 = t := by simpa [chosenTool] using htool
    subst ht
    have hf : app.specialists.find? (fun h2 => h2.name == hid) = some h := by
      simpa [resolveHandler] using hres
    simp only [runTurn, hf]
    exact execWith_cap h t0 arg st

/-- Witness for C2: the greeting specialist asked to run `say_goodbye`
fails with `CapabilityError` and invokes nothing. -/
theorem C2_capability_isolation_witness :
    (runTurn statefulApp initial_state
        (.delegate "greeting_agent" "say_goodbye") none).error
      = some ErrorKind.capabilityError ∧
    (runTurn statefulApp initial_state
        (.delegate "greeting_agent" "say_goodbye") none).invokedTool = none :=
  (C2_capability_isolation statefulApp initial_state
    (.delegate "greeting_agent" "say_goodbye") none greeting_agent "say_goodbye"
    (by decide) (by decide)).1 (by decide)

/-- Claim C3: for every city name not in the fixture table, both
weather tools return Failure(NotFound, message mentioning the original
input), a weather turn on that city produces non-empty apologetic final
text, and the session state after the turn equals the state before. -/
theorem C3_unknown_city (city : String) (st : StateMap)
    (hmiss : lookupCity (normalizeCity city) = none) :
    (∃ msg, get_weather city = ToolResult.failure ErrorKind.notFound msg ∧
       ∃ pre suf, msg = pre ++ city ++ suf) ∧
    (∃ msg, get_weather_stateful city st = ToolResult.failure ErrorKind.notFound msg ∧
       ∃ pre suf, msg = pre ++ city ++ suf) ∧
    ((runTurn basicApp st (.handleSelf "get_weather") (some city)).stateAfter = st ∧
      (runTurn basicApp st (.handleSelf "get_weather") (some city)).finalText ≠ "" ∧
      ∃ pre suf, (runTurn basicApp st (.handleSelf "get_weather") (some city)).finalText
        = pre ++ "sorry" ++ suf) ∧
    ((runTurn statefulApp st (.handleSelf "get_weather_stateful") (some city)).stateAfter = st ∧
      (runTurn statefulApp st (.handleSelf "get_weather_stateful") (some city)).finalText ≠ "" ∧
      ∃ pre suf, (runTurn statefulApp st (.handleSelf "get_weather_stateful") (some city)).finalText
        = pre ++ "sorry" ++ suf) := by
  have hw : get_weather city
      = ToolResult.failure ErrorKind.notFound ("no weather data for " ++ city ++ ".") := by
    simp [get_weather, hmiss]
  have hws : get_weather_stateful city st
      = ToolResult.failure ErrorKind.notFound ("no weather data for " ++ city ++ ".") := by
    simp [get_weather_stateful, hmiss]
  have hreg1 : toolRegistry "get_weather"
      = some (fun arg _ =>
          match arg with
          | some c => get_weather c
          | none => .failure .validationError "missing required argument: city") := rfl
  have hreg2 : toolRegistry "get_weather_stateful"
      = some (fun arg st2 =>
          match arg with
          | some c => get_weather_stateful c st2
          | none => .failure .validationError "missing required argument: city") := rfl
  have hrun1 : runTurn basicApp st (.handleSelf "get_weather") (some city)
      = { finalText := apologyText ("no weather data for " ++ city ++ "."),
          invokedTool := some "get_weather", succeeded := false,
          error := none, stateAfter := st } := by
    show execWith weather_agent_v1 "get_weather" (some city) st = _
    unfold execWith
    rw [if_pos (show "get_weather" ∈ weather_agent_v1.tools by decide)]
    simp only [hreg1, hw]
  have hrun2 : runTurn statefulApp st (.handleSelf "get_weather_stateful") (some city)
      = { finalText := apologyText ("no weather data for " ++ city ++ "."),
          invokedTool := some "get_weather_stateful", succeeded := false,
          error := none, stateAfter := st } := by
    show execWith weather_agent_v4_stateful "get_weather_stateful" (some city) st = _
    unfold execWith
    rw [if_pos (show "get_weather_stateful" ∈ weather_agent_v4_stateful.tools by decide)]
    simp only [hreg2, hws]
  refine ⟨⟨_, hw, "no weather data for ", ".", rfl⟩,
          ⟨_, hws, "no weather data for ", ".", rfl⟩, ?_, ?_⟩
  · rw [hrun1]
    exact ⟨rfl, apologyText_ne_empty _, apologyText_mentions_sorry _⟩
  · rw [hrun2]
    exact ⟨rfl, apologyText_ne_empty _, apologyText_mentions_sorry _⟩

/-- Witness for C3 at the concrete unknown city "Paris". -/
theorem C3_unknown_city_witness :
    (∃ msg, get_weather "Paris" = ToolResult.failure ErrorKind.notFound msg ∧
       ∃ pre suf, msg = pre ++ "Paris" ++ suf) ∧
    (runTurn statefulApp initial_state
        (.handleSelf "get_weather_stateful") (some "Paris")).stateAfter = initial_state :=
  ⟨(C3_unknown_city "Paris" initial_state (by decide)).1,
   (C3_unknown_city "Paris" initial_state (by decide)).2.2.2.1⟩

/-- Claim C4: a turn of the stateful application resolved by delegation
to a specialist leaves the value under the coordinator's output key
unchanged: only the coordinator's own tool results are captured. -/
theorem C4_delegation_preserves_output_key (hid t : String) (arg : Option String)
    (st : StateMap) (h : Handler)
    (hres : resolveHandler statefulApp (.delegate hid t) = some h) :
    statefulApp.root.outputKey = some "last_weather_report" ∧
    (runTurn statefulApp st (.delegate hid t) arg).stateAfter "last_weather_report"
      = st "last_weather_report" := by
  refine ⟨rfl, ?_⟩
  have hf : statefulApp.specialists.find? (fun h2 => h2.name == hid) = some h := by
    simpa [resolveHandler] using hres
  have hmem : h ∈ statefulApp.specialists := List.mem_of_find?_eq_some hf
  simp only [runTurn, hf]
  simp only [statefulApp, List.mem_cons, List.not_mem_nil, or_false,
    List.mem_singleton] at hmem
  by_cases ht : t ∈ h.tools
  · rcases hmem with rfl | rfl
    · have ht2 : t = "say_hello" := by simpa [greeting_agent] using ht
      subst ht2
      unfold execWith
      rw [if_pos ht]
      rfl
    · have ht2 : t = "say_goodbye" := by simpa [farewell_agent] using ht
      subst ht2
      unfold execWith
      rw [if_pos ht]
      rfl
  · unfold execWith
    rw [if_neg ht]

/-- Witness for C4: a farewell delegation leaves the output key
untouched. -/
theorem C4_delegation_preserves_output_key_witness :
    statefulApp.root.outputKey = some "last_weather_report" ∧
    (runTurn statefulApp initial_state
        (.delegate "farewell_agent" "say_goodbye") none).stateAfter "last_weather_report"
      = initial_state "last_weather_report" :=
  C4_delegation_preserves_output_key "farewell_agent" "say_goodbye" none
    initial_state farewell_agent (by decide)

/-- Claim C5: a turn run by a handler configured with an output key
that finalizes successfully has its final textual report written under
that key, the write lands after any tool-emitted state write of the
turn, and it overwrites whatever the key held before. -/
theorem C5_output_key_capture (app : App) (st : StateMap) (d : RoutingDecision)
    (arg : Option String) (h : Handler) (k : String)
    (hres : resolveHandler app d = some h) (hkey : h.outputKey = some k)
    (hsucc : (runTurn app st d arg).succeeded = true) :
    (runTurn app st d arg).stateAfter k = some ((runTurn app st d arg).finalText) ∧
    ∃ w, (runTurn app st d arg).stateAfter =
      applyWrite (applyWrite st w) [(k, (runTurn app st d arg).finalText)] := by
  cases d with
  | decline => simp [resolveHandler] at hres
  | handleSelf t0 =>
    have hh : app.root = h := by simpa [resolveHandler] using hres
    have hkey2 : app.root.outputKey = some k := hh ▸ hkey
    exact execWith_output_key app.root t0 arg st k hkey2 hsucc
  | delegate hid t0 =>
    have hf : app.specialists.find? (fun h2 => h2.name == hid) = some h := by
      simpa [resolveHandler] using hres
    simp only [runTurn, hf] at hsucc ⊢
    exact execWith_output_key h t0 arg st k hkey hsucc

/-- Witness for C5: a successful stateful weather turn saves its final
report under "last_weather_report". -/
theorem C5_output_key_capture_witness :
    (runTurn statefulApp initial_state
        (.handleSelf "get_weather_stateful") (some "London")).stateAfter "last_weather_report"
      = some ((runTurn statefulApp initial_state
          (.handleSelf "get_weather_stateful") (some "London")).finalText) ∧
    ∃ w, (runTurn statefulApp initial_state
        (.handleSelf "get_weather_stateful") (some "London")).stateAfter
      = applyWrite (applyWrite initial_state w)
          [("last_weather_report",
            (runTurn statefulApp initial_state
              (.handleSelf "get_weather_stateful") (some "London")).finalText)] :=
  C5_output_key_capture statefulApp initial_state
    (.handleSelf "get_weather_stateful") (some "London")
    weather_agent_v4_stateful "last_weather_report" rfl rfl (by rfl)

theorem runTurns_length (app : App) (st : StateMap)
    (ts : List (RoutingDecision × Option String)) :
    (runTurns app st ts).length = ts.length := by
  induction ts generalizing st with
  | nil => rfl
  | cons t rest ih =>
    obtain ⟨d, a⟩ := t
    simp [runTurns, ih]

theorem runTurns_get_zero (app : App) (st : StateMap)
    (ts : List (RoutingDecision × Option String))
    (h0 : 0 < (runTurns app st ts).length) :
    ((runTurns app st ts).get ⟨0, h0⟩).snapshot = st := by
  cases ts with
  | nil => simp [runTurns] at h0
  | cons t rest =>
    obtain ⟨d, a⟩ := t
    rfl

/-- Claim C7: in a sequentially driven conversation, the snapshot taken
at the start of turn k+1 equals the state committed by turn k: every
state write of turn k is visible to turn k+1. -/
theorem C7_read_your_writes (app : App) (st : StateMap)
    (ts : List (RoutingDecision × Option String)) (k : Nat)
    (hk : k + 1 < (runTurns app st ts).length) :
    ((runTurns app st ts).get ⟨k + 1, hk⟩).snapshot
      = ((runTurns app st ts).get ⟨k, Nat.lt_of_succ_lt hk⟩).outcome.stateAfter := by
  induction ts generalizing st k with
  | nil => simp [runTurns] at hk
  | cons t rest ih =>
    obtain ⟨d, a⟩ := t
    cases k with
    | zero =>
      have h0 : 0 < (runTurns app (runTurn app st d a).stateAfter rest).length := by
        rw [runTurns_length] at hk ⊢
        simp [List.length_cons] at hk
        omega
      exact runTurns_get_zero app (runTurn app st d a).stateAfter rest h0
    | succ n =>
      have hk2 : n + 1 < (runTurns app (runTurn app st d a).stateAfter rest).length := by
        rw [runTurns_length] at hk ⊢
        simp [List.length_cons] at hk
        omega
      exact ih (runTurn app st d a).stateAfter n hk2

/-- Witness for C7 on a concrete two-turn conversation. -/
theorem C7_read_your_writes_witness :
    ((runTurns statefulApp initial_state
        [(.handleSelf "get_weather_stateful", some "London"),
         (.delegate "farewell_agent" "say_goodbye", none)]).get ⟨1, by decide⟩).snapshot
      = ((runTurns statefulApp initial_state
          [(.handleSelf "get_weather_stateful", some "London"),
           (.delegate "farewell_agent" "say_goodbye", none)]).get
            ⟨0, by decide⟩).outcome.stateAfter :=
  C7_read_your_writes statefulApp initial_state
    [(.handleSelf "get_weather_stateful", some "London"),
     (.delegate "farewell_agent" "say_goodbye", none)] 0 (by decide)

/-- Claim C9: in all three programs every agent's tool allow-list is a
singleton (the coordinators hold exactly their weather tool, the
specialists exactly their greeting/farewell tool), so a HandleSelf turn
can only ever invoke the single weather tool. -/
theorem C9_singleton_allowlists :
    weather_agent_v1.tools = ["get_weather"] ∧
    weather_agent_v2.tools = ["get_weather"] ∧
    weather_agent_v4_stateful.tools = ["get_weather_stateful"] ∧
    greeting_agent.tools = ["say_hello"] ∧
    farewell_agent.tools = ["say_goodbye"] ∧
    ∀ st t arg t2,
      ((runTurn basicApp st (.handleSelf t) arg).invokedTool = some t2
        → t2 = "get_weather") ∧
      ((runTurn teamApp st (.handleSelf t) arg).invokedTool = some t2
        → t2 = "get_weather") ∧
      ((runTurn statefulApp st (.handleSelf t) arg).invokedTool = some t2
        → t2 = "get_weather_stateful") := by
  refine ⟨rfl, rfl, rfl, rfl, rfl, ?_⟩
  intro st t arg t2
  refine ⟨fun h2 => ?_, fun h2 => ?_, fun h2 => ?_⟩
  · have hm := (execWith_cap basicApp.root t arg st).2 t2 h2
    simpa [basicApp, weather_agent_v1] using hm
  · have hm := (execWith_cap teamApp.root t arg st).2 t2 h2
    simpa [teamApp, weather_agent_v2] using hm
  · have hm := (execWith_cap statefulApp.root t arg st).2 t2 h2
    simpa [statefulApp, weather_agent_v4_stateful] using hm

/-- Witness for C9: the stateful coordinator invoking its weather tool
indeed invoked the single allow-listed tool. -/
theorem C9_singleton_allowlists_witness :
    (runTurn statefulApp initial_state (.handleSelf "get_weather_stateful")
        (some "London")).invokedTool = some "get_weather_stateful" ∧
    "get_weather_stateful" = "get_weather_stateful" :=
  ⟨rfl, (C9_singleton_allowlists.2.2.2.2.2 initial_state "get_weather_stateful"
      (some "London") "get_weather_stateful").2.2 rfl⟩

/-- Claim C10: the demo's manual bypass writes "Fahrenheit" directly
into the stored session's state mapping, changing only the
unit-preference key and leaving the last-update timestamp (and every
other field) unchanged, whereas the `applyStateWrite` contract always
stamps the timestamp. -/
theorem C10_manual_state_bypass (sess : Session) :
    (manualSetFahrenheit sess).state prefKey = some "Fahrenheit" ∧
    (∀ k, k ≠ prefKey → (manualSetFahrenheit sess).state k = sess.state k) ∧
    (manualSetFahrenheit sess).lastUpdate = sess.lastUpdate ∧
    (manualSetFahrenheit sess).createTime = sess.createTime ∧
    ∀ w now, (applyStateWrite sess w now).lastUpdate = now := by
  refine ⟨?_, ?_, rfl, rfl, fun w now => rfl⟩
  · simp [manualSetFahrenheit]
  · intro k hk
    simp [manualSetFahrenheit, hk]

/-- Witness for C10 on a concrete session and off-preference key. -/
theorem C10_manual_state_bypass_witness :
    ("last_weather_report" ≠ prefKey) ∧
    (manualSetFahrenheit ⟨"app", "u", "s", initial_state, 0, 0⟩).state "last_weather_report"
      = initial_state "last_weather_report" ∧
    (manualSetFahrenheit ⟨"app", "u", "s", initial_state, 0, 0⟩).lastUpdate = 0 :=
  ⟨by decide,
   (C10_manual_state_bypass ⟨"app", "u", "s", initial_state, 0, 0⟩).2.1
     "last_weather_report" (by decide),
   (C10_manual_state_bypass ⟨"app", "u", "s", initial_state, 0, 0⟩).2.2.1⟩

end AgentDemo
